import Mathlib

/-
Verification development for the NEXAWEALTH cycle engine
(src/src/sim/engine.js).  JavaScript numbers are embedded as exact
rationals; Math.round is embedded as jsRound; the three Math.random
draws one runDecisionCycle performs (event roll, event pick, market
noise) are passed explicitly in an Rng record, so the engine is a pure
function of its inputs, as in the source.
-/

namespace Nexa

/-- Market preset: label and monthly base return (MARKET_PRESETS). -/
structure MarketPreset where
  label : String
  baseReturn : ℚ
deriving DecidableEq

/-- Lifestyle preset: spending multiplier and stress relief (LIFESTYLE_PRESETS). -/
structure LifestylePreset where
  label : String
  variableMultiplier : ℚ
  stressRelief : ℚ
deriving DecidableEq

/-- Allocation preset: save, invest and debt rates (ALLOCATION_PRESETS). -/
structure AllocationPreset where
  label : String
  saveRate : ℚ
  investRate : ℚ
  debtRate : ℚ
deriving DecidableEq

/-- Risk preset: multiplier applied to the market base return (RISK_PRESETS). -/
structure RiskPreset where
  label : String
  riskMultiplier : ℚ
deriving DecidableEq

/-- Neutral market preset, the fallback used for unknown market keys. -/
def MARKET_neutral : MarketPreset := { label := "Stable market", baseReturn := 4/1000 }

/-- Market catalog: the MARKET_PRESETS table as a keyed lookup. -/
def MARKET_PRESETS : String → Option MarketPreset
  | "bull" => some { label := "Bull market", baseReturn := 12/1000 }
  | "neutral" => some MARKET_neutral
  | "bear" => some { label := "Bear market", baseReturn := -(8/1000) }
  | _ => none

/-- Balanced lifestyle preset, the fallback used for unknown lifestyle keys. -/
def LIFESTYLE_balanced : LifestylePreset :=
  { label := "Balanced", variableMultiplier := 1, stressRelief := 2 }

/-- Lifestyle catalog: the LIFESTYLE_PRESETS table as a keyed lookup. -/
def LIFESTYLE_PRESETS : String → Option LifestylePreset
  | "frugal" => some { label := "Frugal", variableMultiplier := 7/10, stressRelief := 6 }
  | "balanced" => some LIFESTYLE_balanced
  | "comfort" => some { label := "Comfort", variableMultiplier := 5/4, stressRelief := -2 }
  | "luxury" => some { label := "Luxury", variableMultiplier := 31/20, stressRelief := -6 }
  | _ => none

/-- Balanced allocation preset, the fallback used for unknown allocation keys. -/
def ALLOCATION_balanced : AllocationPreset :=
  { label := "Balanced", saveRate := 15/100, investRate := 1/10, debtRate := 8/100 }

/-- Allocation catalog: the ALLOCATION_PRESETS table as a keyed lookup. -/
def ALLOCATION_PRESETS : String → Option AllocationPreset
  | "balanced" => some ALLOCATION_balanced
  | "debt_crush" => some { label := "Debt Crush", saveRate := 8/100, investRate := 6/100, debtRate := 18/100 }
  | "growth" => some { label := "Growth", saveRate := 1/10, investRate := 18/100, debtRate := 5/100 }
  | "safe" => some { label := "Safety First", saveRate := 1/5, investRate := 6/100, debtRate := 8/100 }
  | _ => none

/-- Moderate risk preset, the fallback used for unknown risk keys. -/
def RISK_moderate : RiskPreset := { label := "Moderate", riskMultiplier := 1 }

/-- Risk catalog: the RISK_PRESETS table as a keyed lookup. -/
def RISK_PRESETS : String → Option RiskPreset
  | "conservative" => some { label := "Conservative", riskMultiplier := 7/10 }
  | "moderate" => some RISK_moderate
  | "aggressive" => some { label := "Aggressive", riskMultiplier := 7/5 }
  | _ => none

/-- Impact record a life event produces.  In the source each impact is a
function of the state that ignores its argument and returns a constant
object with some of these fields; absent fields are embedded as none. -/
structure Impact where
  cashDelta : Option ℚ
  stressDelta : Option ℚ
  incomeMultiplier : Option ℚ
  expenseMultiplier : Option ℚ
deriving DecidableEq

/-- Empty impact, the value used when no life event fires. -/
def Impact.empty : Impact :=
  { cashDelta := none, stressDelta := none, incomeMultiplier := none, expenseMultiplier := none }

/-- Life event: key, label and its constant impact record. -/
structure LifeEvent where
  key : String
  label : String
  impact : Impact
deriving DecidableEq

/-- Event catalog LIFE_EVENTS, in source order. -/
def LIFE_EVENTS : List LifeEvent :=
  [ { key := "bonus", label := "Surprise bonus",
      impact := { Impact.empty with cashDelta := some 800, stressDelta := some (-4) } },
    { key := "medical", label := "Medical emergency",
      impact := { Impact.empty with cashDelta := some (-1200), stressDelta := some 10 } },
    { key := "job_loss", label := "Temporary job loss",
      impact := { Impact.empty with incomeMultiplier := some (7/10), stressDelta := some 12 } },
    { key := "promotion", label := "Promotion unlocked",
      impact := { Impact.empty with incomeMultiplier := some (27/25), stressDelta := some (-5) } },
    { key := "inflation", label := "Inflation spike",
      impact := { Impact.empty with expenseMultiplier := some (27/25), stressDelta := some 6 } } ]

/-- Embedding of the clamp helper: Math.min(Math.max(value, lo), hi). -/
def clamp (value lo hi : ℚ) : ℚ := min (max value lo) hi

/-- Embedding of Math.round: round half toward positive infinity. -/
def jsRound (q : ℚ) : ℤ := ⌊q + 1/2⌋

/-- Scenario fields the engine reads (scenarioPresets entries carry more
display-only fields, which runDecisionCycle never touches). -/
structure Scenario where
  income : ℚ
  fixedExpenses : ℚ
  debtRate : ℚ
deriving DecidableEq

/-- Decision record, all five catalog keys. -/
structure Decision where
  lifestyle : String
  allocation : String
  debtStrategy : String
  riskProfile : String
  marketMode : String
deriving DecidableEq

/-- Default decision from the source. -/
def defaultDecision : Decision :=
  { lifestyle := "balanced", allocation := "balanced", debtStrategy := "minimum",
    riskProfile := "moderate", marketMode := "neutral" }

/-- Snapshot recorded into history after each cycle. -/
structure Snapshot where
  month : ℤ
  netWorth : ℤ
  cashOnHand : ℤ
  savings : ℤ
  investments : ℤ
  debtBalance : ℤ
  stressLevel : ℚ
  creditScore : ℚ
  expenses : ℤ
  income : ℤ
  marketReturn : ℚ
  decision : Decision
  event : String
deriving DecidableEq

/-- Simulation state carried between cycles. -/
structure SimState where
  month : ℤ
  cashOnHand : ℚ
  savings : ℚ
  investments : ℚ
  debtBalance : ℚ
  stressLevel : ℚ
  creditScore : ℚ
  history : List Snapshot
deriving DecidableEq

/-- Default state from the source. -/
def defaultState : SimState :=
  { month := 1, cashOnHand := 1200, savings := 3000, investments := 2500,
    debtBalance := 12000, stressLevel := 35, creditScore := 690, history := [] }

/-- Embedding of computeStress: 60 minus the cash safety buffer times 18
plus the debt load times 26 minus the lifestyle relief, rounded and
clamped to the band from 5 to 95. -/
def computeStress (cashOnHand debtBalance expenses : ℚ) (lifestyle : String) : ℚ :=
  let safetyBuffer := cashOnHand / max expenses 1
  let debtLoad := debtBalance / 25000
  let lifestyleRelief := ((LIFESTYLE_PRESETS lifestyle).map (·.stressRelief)).getD 0
  let raw := 60 - safetyBuffer * 18 + debtLoad * 26 - lifestyleRelief
  clamp ((jsRound raw : ℚ)) 5 95

/-- Embedding of updateCredit: minus 18 on a missed payment, plus 6 when
paying while still in debt, plus 2 otherwise. -/
def updateCredit (debtPayment debtBalance : ℚ) (missed : Bool) : ℚ :=
  if missed then -18
  else if debtPayment > 0 ∧ debtBalance > 0 then 6
  else 2

/-- Embedding of getLifeEvent: with the first draw below 0.18 an event
fires, picked by flooring the second draw scaled by the catalog size;
an out-of-range index yields none, matching the undefined element a
JavaScript array access would give. -/
def getLifeEvent (roll pick : ℚ) : Option LifeEvent :=
  if roll < 18/100 then
    let i := ⌊pick * (LIFE_EVENTS.length : ℚ)⌋
    if 0 ≤ i then LIFE_EVENTS.get? i.toNat else none
  else none

/-- Random draws one cycle consumes: event roll, event pick, market noise. -/
structure Rng where
  roll : ℚ
  pick : ℚ
  noise : ℚ
deriving DecidableEq

/-
The consts computed inside runDecisionCycle, each embedded as a
top-level function of the inputs it reads, in source order.
-/

/-- Market preset chosen by the decision, falling back to neutral. -/
def market (decision : Decision) : MarketPreset :=
  (MARKET_PRESETS decision.marketMode).getD MARKET_neutral

/-- Allocation preset chosen by the decision, falling back to balanced. -/
def allocation (decision : Decision) : AllocationPreset :=
  (ALLOCATION_PRESETS decision.allocation).getD ALLOCATION_balanced

/-- Lifestyle preset chosen by the decision, falling back to balanced. -/
def lifestyle (decision : Decision) : LifestylePreset :=
  (LIFESTYLE_PRESETS decision.lifestyle).getD LIFESTYLE_balanced

/-- Risk preset chosen by the decision, falling back to moderate. -/
def risk (decision : Decision) : RiskPreset :=
  (RISK_PRESETS decision.riskProfile).getD RISK_moderate

/-- Life event sampled this cycle. -/
def event (rng : Rng) : Option LifeEvent := getLifeEvent rng.roll rng.pick

/-- Impact of the sampled event, empty when no event fires. -/
def eventImpact (rng : Rng) : Impact := ((event rng).map (·.impact)).getD Impact.empty

/-- Income multiplier from the event impact, defaulting to 1. -/
def incomeMultiplier (rng : Rng) : ℚ := ((eventImpact rng).incomeMultiplier).getD 1

/-- Expense multiplier from the event impact, defaulting to 1. -/
def expenseMultiplier (rng : Rng) : ℚ := ((eventImpact rng).expenseMultiplier).getD 1

/-- Effective income this cycle. -/
def income (scenario : Scenario) (rng : Rng) : ℚ :=
  scenario.income * incomeMultiplier rng

/-- Effective fixed expenses this cycle. -/
def fixedExpenses (scenario : Scenario) (rng : Rng) : ℚ :=
  scenario.fixedExpenses * expenseMultiplier rng

/-- Variable expenses: 55 percent of fixed expenses scaled by lifestyle. -/
def variableExpenses (scenario : Scenario) (decision : Decision) : ℚ :=
  scenario.fixedExpenses * (55/100) * (lifestyle decision).variableMultiplier

/-- Total expenses this cycle. -/
def expenses (scenario : Scenario) (decision : Decision) (rng : Rng) : ℚ :=
  fixedExpenses scenario rng + variableExpenses scenario decision

/-- Base debt payment: income times the allocation debt rate. -/
def baseDebtPayment (scenario : Scenario) (decision : Decision) (rng : Rng) : ℚ :=
  income scenario rng * (allocation decision).debtRate

/-- Debt payment: base scaled by 1.5 on the aggressive strategy, else by 0.8. -/
def debtPayment (scenario : Scenario) (decision : Decision) (rng : Rng) : ℚ :=
  if decision.debtStrategy = "aggressive" then baseDebtPayment scenario decision rng * (3/2)
  else baseDebtPayment scenario decision rng * (4/5)

/-- Savings contribution: income times the allocation save rate. -/
def savingsContribution (scenario : Scenario) (decision : Decision) (rng : Rng) : ℚ :=
  income scenario rng * (allocation decision).saveRate

/-- Investment contribution: income times the allocation invest rate. -/
def investmentContribution (scenario : Scenario) (decision : Decision) (rng : Rng) : ℚ :=
  income scenario rng * (allocation decision).investRate

/-- Market return: base return times risk multiplier plus centered noise. -/
def marketReturn (decision : Decision) (rng : Rng) : ℚ :=
  (market decision).baseReturn * (risk decision).riskMultiplier + (rng.noise - 1/2) * (1/100)

/-- Monthly debt interest on the current balance. -/
def debtInterest (scenario : Scenario) (state : SimState) : ℚ :=
  state.debtBalance * (scenario.debtRate / 12)

/-- Total outflow this cycle. -/
def outflow (scenario : Scenario) (decision : Decision) (rng : Rng) : ℚ :=
  expenses scenario decision rng + debtPayment scenario decision rng +
    savingsContribution scenario decision rng + investmentContribution scenario decision rng

/-- Net cash movement this cycle, event cash delta included. -/
def cashDelta (scenario : Scenario) (decision : Decision) (rng : Rng) : ℚ :=
  income scenario rng - outflow scenario decision rng + ((eventImpact rng).cashDelta).getD 0

/-- Missed-payment flag: the cash delta fell below minus 250. -/
def missedPayment (scenario : Scenario) (decision : Decision) (rng : Rng) : Bool :=
  decide (cashDelta scenario decision rng < -250)

/-- Cash on hand after the cycle. -/
def nextCash (scenario : Scenario) (decision : Decision) (state : SimState) (rng : Rng) : ℚ :=
  state.cashOnHand + cashDelta scenario decision rng

/-- Savings after the cycle. -/
def nextSavings (scenario : Scenario) (decision : Decision) (state : SimState) (rng : Rng) : ℚ :=
  state.savings + savingsContribution scenario decision rng

/-- Investments after the cycle, grown by the market return. -/
def nextInvestments (scenario : Scenario) (decision : Decision) (state : SimState) (rng : Rng) : ℚ :=
  (state.investments + investmentContribution scenario decision rng) * (1 + marketReturn decision rng)

/-- Debt balance after interest and payment, clamped to the band from 0 to 1e9. -/
def nextDebt (scenario : Scenario) (decision : Decision) (state : SimState) (rng : Rng) : ℚ :=
  clamp (state.debtBalance + debtInterest scenario state - debtPayment scenario decision rng) 0 1000000000

/-- Net worth after the cycle. -/
def netWorth (scenario : Scenario) (decision : Decision) (state : SimState) (rng : Rng) : ℚ :=
  nextCash scenario decision state rng + nextSavings scenario decision state rng +
    nextInvestments scenario decision state rng - nextDebt scenario decision state rng

/-- Stress level after the cycle. -/
def stressLevel (scenario : Scenario) (decision : Decision) (state : SimState) (rng : Rng) : ℚ :=
  computeStress (nextCash scenario decision state rng) (nextDebt scenario decision state rng)
    (expenses scenario decision rng) decision.lifestyle

/-- Credit score after the cycle, adjusted and clamped to the band from 420 to 850. -/
def creditScore (scenario : Scenario) (decision : Decision) (state : SimState) (rng : Rng) : ℚ :=
  clamp (state.creditScore +
      updateCredit (debtPayment scenario decision rng) (nextDebt scenario decision state rng)
        (missedPayment scenario decision rng))
    420 850

/-- Snapshot recorded for this cycle. -/
def snapshot (scenario : Scenario) (decision : Decision) (state : SimState) (rng : Rng) : Snapshot :=
  { month := state.month,
    netWorth := jsRound (netWorth scenario decision state rng),
    cashOnHand := jsRound (nextCash scenario decision state rng),
    savings := jsRound (nextSavings scenario decision state rng),
    investments := jsRound (nextInvestments scenario decision state rng),
    debtBalance := jsRound (nextDebt scenario decision state rng),
    stressLevel := stressLevel scenario decision state rng,
    creditScore := creditScore scenario decision state rng,
    expenses := jsRound (expenses scenario decision rng),
    income := jsRound (income scenario rng),
    marketReturn := marketReturn decision rng,
    decision := decision,
    event := ((event rng).map (·.label)).getD "Quiet month" }

/-- Embedding of Array.prototype.slice with a negative start: keep the
last n elements of the list. -/
def jsSliceLast (n : ℕ) (l : List α) : List α := l.drop (l.length - n)

/-- Embedding of runDecisionCycle: one full cycle state transition. -/
def runDecisionCycle (scenario : Scenario) (decision : Decision) (state : SimState) (rng : Rng) : SimState :=
  { month := state.month + 1,
    cashOnHand := nextCash scenario decision state rng,
    savings := nextSavings scenario decision state rng,
    investments := nextInvestments scenario decision state rng,
    debtBalance := nextDebt scenario decision state rng,
    stressLevel := stressLevel scenario decision state rng,
    creditScore := creditScore scenario decision state rng,
    history := jsSliceLast 72 (state.history ++ [snapshot scenario decision state rng]) }

/-- Forecast point returned by projectFuture. -/
structure ProjPoint where
  month : ℤ
  netWorth : ℤ
  debtBalance : ℤ
  investments : ℤ
deriving DecidableEq

/-- Placeholder snapshot used for the impossible empty-history read in
projectFuture; after a cycle the history always holds the new snapshot,
so this default is never the value actually read. -/
def dummySnapshot : Snapshot :=
  { month := 0, netWorth := 0, cashOnHand := 0, savings := 0, investments := 0,
    debtBalance := 0, stressLevel := 0, creditScore := 0, expenses := 0, income := 0,
    marketReturn := 0, decision := defaultDecision, event := "" }

/-- Loop body of projectFuture: i is the current index, the second
argument counts the remaining iterations, and each iteration consumes
the draws rngs i. -/
def projectAux (scenario : Scenario) (decision : Decision) (baseMonth : ℤ)
    (rngs : ℕ → Rng) : ℕ → ℕ → SimState → List ProjPoint
  | _, 0, _ => []
  | i, k + 1, ps =>
    let ps2 := runDecisionCycle scenario decision ps (rngs i)
    let latest := ps2.history.getLastD dummySnapshot
    { month := baseMonth + i, netWorth := latest.netWorth,
      debtBalance := latest.debtBalance, investments := latest.investments } ::
      projectAux scenario decision baseMonth rngs (i + 1) k ps2

/-- Embedding of projectFuture: months cycles from a copy of the state,
collecting one forecast point per cycle; the recorded month is the start
month of the caller's state plus the loop index. -/
def projectFuture (scenario : Scenario) (decision : Decision) (state : SimState)
    (months : ℕ) (rngs : ℕ → Rng) : List ProjPoint :=
  projectAux scenario decision state.month rngs 0 months state

/-- Modelled from the spec: the stress formula the spec states, namely
clamp of the rounded value of 62 minus the cash ratio times 18 plus the
debt load times 28, written here only to compare against computeStress. -/
def specStressFormula (nextCash expenses totalDebt : ℚ) : ℚ :=
  clamp ((jsRound (62 - (nextCash / max expenses 1) * 18 + (totalDebt / 25000) * 28) : ℚ)) 5 95

/-- Snapshot fields without the recorded decision, used to compare runs
that differ only in the catalog keys they carry. -/
structure SnapshotCore where
  month : ℤ
  netWorth : ℤ
  cashOnHand : ℤ
  savings : ℤ
  investments : ℤ
  debtBalance : ℤ
  stressLevel : ℚ
  creditScore : ℚ
  expenses : ℤ
  income : ℤ
  marketReturn : ℚ
  event : String
deriving DecidableEq

/-- Projection of a snapshot onto its fields other than the recorded decision. -/
def Snapshot.core (s : Snapshot) : SnapshotCore :=
  { month := s.month, netWorth := s.netWorth, cashOnHand := s.cashOnHand,
    savings := s.savings, investments := s.investments, debtBalance := s.debtBalance,
    stressLevel := s.stressLevel, creditScore := s.creditScore, expenses := s.expenses,
    income := s.income, marketReturn := s.marketReturn, event := s.event }

/-- Concrete scenario with zero income, zero fixed expenses and zero debt rate. -/
def cSc1 : Scenario := { income := 0, fixedExpenses := 0, debtRate := 0 }

/-- Concrete scenario with zero income, fixed expenses of 1000 and zero debt rate. -/
def cSc2 : Scenario := { income := 0, fixedExpenses := 1000, debtRate := 0 }

/-- Concrete start state with all balances zero and no debt. -/
def cSt0 : SimState :=
  { month := 1, cashOnHand := 0, savings := 0, investments := 0, debtBalance := 0,
    stressLevel := 35, creditScore := 690, history := [] }

/-- Concrete draws under which no life event fires and the market noise is zero. -/
def cRngNone : Rng := { roll := 1, pick := 0, noise := 1/2 }

/-- Concrete draws under which the bonus life event fires and the market noise is zero. -/
def cRngBonus : Rng := { roll := 0, pick := 0, noise := 1/2 }

/-- Concrete decision whose market and risk keys are absent from the catalogs. -/
def cDMystery : Decision :=
  { defaultDecision with marketMode := "mystery", riskProfile := "mystery" }

/-- Concrete decision with an unknown market key and the valid aggressive risk key. -/
def cDUnknownMarket : Decision :=
  { defaultDecision with marketMode := "mystery", riskProfile := "aggressive" }

/-- Concrete decision with the neutral market key and the aggressive risk key. -/
def cDAggressiveRisk : Decision :=
  { defaultDecision with riskProfile := "aggressive" }

end Nexa

namespace Nexa

/-- Lower bound of clamp: the result never falls below lo when lo is at most hi. -/
theorem le_clamp (v lo hi : ℚ) (h : lo ≤ hi) : lo ≤ clamp v lo hi :=
  le_min (le_max_right v lo) h

/-- Upper bound of clamp: the result never exceeds hi. -/
theorem clamp_le (v lo hi : ℚ) : clamp v lo hi ≤ hi := min_le_right _ _

/-- Mapping a function over the last-n slice is slicing the mapped list. -/
theorem jsSliceLast_map (f : α → β) (n : ℕ) (l : List α) :
    (jsSliceLast n l).map f = jsSliceLast n (l.map f) := by
  simp [jsSliceLast]

/-- Months recorded by the projection loop: starting at index i with k
iterations left, the forecast months are the base month plus i, i plus 1
and so on, independent of the state and the draws. -/
theorem projectAux_map_month (sc : Scenario) (d : Decision) (m : ℤ) (rngs : ℕ → Rng) :
    ∀ (k i : ℕ) (ps : SimState),
      (projectAux sc d m rngs i k ps).map (·.month) =
        (List.range' i k).map (fun j : ℕ => m + (j : ℤ)) := by
  intro k
  induction k with
  | zero => intro i ps; simp [projectAux]
  | succ n ih =>
    intro i ps
    rw [List.range'_succ]
    simp only [projectAux, List.map_cons, ih]

/-- Claim C1 counterexample: in a cycle on a state with zero debt the
engine pays 0 toward debt, which is not below 90 percent of the (empty)
minimum-due total, yet the cycle is classified missed, because the
classification actually tests the cash delta against minus 250. -/
theorem c1_claim_false_at_zero_debt :
    cSt0.debtBalance = 0 ∧
    missedPayment cSc2 defaultDecision cRngNone = true ∧
    ¬ debtPayment cSc2 defaultDecision cRngNone < (9/10) * 0 := by
  refine ⟨rfl, ?_, ?_⟩ <;>
  norm_num [missedPayment, cashDelta, income, outflow, expenses, fixedExpenses, variableExpenses,
    debtPayment, baseDebtPayment, savingsContribution, investmentContribution,
    incomeMultiplier, expenseMultiplier, eventImpact, event, getLifeEvent, LIFE_EVENTS,
    cSc2, cRngNone, defaultDecision, LIFESTYLE_PRESETS, ALLOCATION_PRESETS,
    LIFESTYLE_balanced, ALLOCATION_balanced, Impact.empty, allocation, lifestyle]

/-- Claim C1 (amended): a cycle is classified missed exactly when income
minus the total outflow (expenses plus the three contributions) plus the
cash delta of the life event falls below minus 250; minimum-due amounts
do not exist in the engine and play no role. -/
theorem c1_missed_iff_cash_shortfall (sc : Scenario) (d : Decision) (rng : Rng) :
    missedPayment sc d rng = true ↔
      income sc rng -
          (expenses sc d rng + debtPayment sc d rng + savingsContribution sc d rng +
            investmentContribution sc d rng) +
          ((eventImpact rng).cashDelta).getD 0 < -250 := by
  simp [missedPayment, cashDelta, outflow]

/-- Claim C2 counterexample: a concrete missed cycle adjusts the credit
score by minus 18, not the minus 20 the claim states, so the resulting
score differs from the claimed clamp of score minus 20. -/
theorem c2_claim_false_on_missed_cycle :
    missedPayment cSc2 defaultDecision cRngNone = true ∧
    (runDecisionCycle cSc2 defaultDecision cSt0 cRngNone).creditScore ≠
      clamp (cSt0.creditScore + (-20)) 420 850 := by
  constructor <;>
  norm_num [runDecisionCycle, creditScore, updateCredit, missedPayment, cashDelta, income,
    outflow, expenses, fixedExpenses, variableExpenses, debtPayment, baseDebtPayment,
    savingsContribution, investmentContribution, debtInterest, nextDebt, clamp,
    incomeMultiplier, expenseMultiplier, eventImpact, event, getLifeEvent, LIFE_EVENTS,
    cSc2, cSt0, cRngNone, defaultDecision, LIFESTYLE_PRESETS, ALLOCATION_PRESETS,
    LIFESTYLE_balanced, ALLOCATION_balanced, Impact.empty, allocation, lifestyle]

/-- Claim C2 (amended): the credit adjustment of one cycle is minus 18
when the payment is missed, otherwise plus 6 when the debt payment is
positive and the updated debt balance is positive, otherwise plus 2, and
the adjusted score is clamped to the band from 420 to 850; no
utilization ratio is involved. -/
theorem c2_credit_adjustment_formula (sc : Scenario) (d : Decision) (st : SimState) (rng : Rng) :
    (runDecisionCycle sc d st rng).creditScore =
      clamp (st.creditScore +
          (if missedPayment sc d rng = true then (-18 : ℚ)
           else if 0 < debtPayment sc d rng ∧ 0 < nextDebt sc d st rng then 6 else 2))
        420 850 := rfl

/-- Claim C3 counterexample: at a concrete quiet cycle the produced
stress level is 58 while the formula stated by the claim yields 62, so
the stress level is not the claimed function of next cash, expenses and
total debt. -/
theorem c3_claim_false_at_quiet_month :
    (runDecisionCycle cSc1 defaultDecision cSt0 cRngNone).stressLevel ≠
      specStressFormula (nextCash cSc1 defaultDecision cSt0 cRngNone)
        (expenses cSc1 defaultDecision cRngNone) (nextDebt cSc1 defaultDecision cSt0 cRngNone) := by
  norm_num [runDecisionCycle, stressLevel, computeStress, specStressFormula, nextCash, nextDebt,
    expenses, fixedExpenses, variableExpenses, cashDelta, income, outflow, debtPayment,
    baseDebtPayment, savingsContribution, investmentContribution, debtInterest,
    incomeMultiplier, expenseMultiplier, eventImpact, event, getLifeEvent, LIFE_EVENTS,
    clamp, jsRound, Int.floor_eq_iff, cSc1, cSt0, cRngNone, defaultDecision,
    LIFESTYLE_PRESETS, ALLOCATION_PRESETS, LIFESTYLE_balanced, ALLOCATION_balanced,
    Impact.empty, allocation, lifestyle]

/-- Claim C3 (amended): the stress level produced by one cycle equals
the clamp to the band from 5 to 95 of the rounded value of 60 minus the
cash buffer (next cash over the larger of expenses and 1) times 18 plus
the debt load (updated debt over 25000) times 26 minus the stress relief
of the lifestyle key of joining the decision, so it depends on the
lifestyle choice as well as on next cash, expenses and total debt. -/
theorem c3_stress_formula (sc : Scenario) (d : Decision) (st : SimState) (rng : Rng) :
    (runDecisionCycle sc d st rng).stressLevel =
      clamp ((jsRound (60 - (nextCash sc d st rng / max (expenses sc d rng) 1) * 18 +
          (nextDebt sc d st rng / 25000) * 26 -
          ((LIFESTYLE_PRESETS d.lifestyle).map (·.stressRelief)).getD 0) : ℚ)) 5 95 := rfl

/-- Claim C4: for every input state, even one whose stress level or
credit score lies outside range, the state returned by one
runDecisionCycle call has its stress level in the band from 5 to 95 and
its credit score in the band from 420 to 850. -/
theorem c4_stress_credit_clamped (sc : Scenario) (d : Decision) (st : SimState) (rng : Rng) :
    5 ≤ (runDecisionCycle sc d st rng).stressLevel ∧
      (runDecisionCycle sc d st rng).stressLevel ≤ 95 ∧
      420 ≤ (runDecisionCycle sc d st rng).creditScore ∧
      (runDecisionCycle sc d st rng).creditScore ≤ 850 :=
  ⟨le_clamp _ _ _ (by norm_num), clamp_le _ _ _, le_clamp _ _ _ (by norm_num), clamp_le _ _ _⟩

/-- Claim C5: the history returned by one cycle is the prior history
with the new snapshot appended and truncated from the front to the most
recent 72, and its length is the smaller of prior length plus 1 and 72;
so it never exceeds 72 and is exactly 72 once 72 cycles are on record. -/
theorem c5_history_append_truncate (sc : Scenario) (d : Decision) (st : SimState) (rng : Rng) :
    (runDecisionCycle sc d st rng).history =
        jsSliceLast 72 (st.history ++ [snapshot sc d st rng]) ∧
      (runDecisionCycle sc d st rng).history.length = min (st.history.length + 1) 72 := by
  refine ⟨rfl, ?_⟩
  show (jsSliceLast 72 (st.history ++ [snapshot sc d st rng])).length = _
  simp [jsSliceLast]
  omega

/-- Claim C6: the projection over 0 periods is empty, over n periods it
returns exactly n points, and the recorded months are the start month of
the caller's state, increasing by exactly 1 per point; the start state
is taken by value, the embedding being pure as the source function is. -/
theorem c6_projection_points (sc : Scenario) (d : Decision) (st : SimState) (n : ℕ)
    (rngs : ℕ → Rng) :
    projectFuture sc d st 0 rngs = [] ∧
      (projectFuture sc d st n rngs).length = n ∧
      (projectFuture sc d st n rngs).map (·.month) =
        (List.range n).map (fun i : ℕ => st.month + (i : ℤ)) := by
  refine ⟨rfl, ?_, ?_⟩
  · have h := projectAux_map_month sc d st.month rngs n 0 st
    have h2 := congrArg List.length h
    simpa [projectFuture] using h2
  · have h := projectAux_map_month sc d st.month rngs n 0 st
    rw [projectFuture, h, List.range_eq_range']

/-- Claim C7 counterexample: two consecutive cycles given identical
draws both record the bonus event, so the same life event can fire in
two consecutive cycles; the engine never excludes the preceding key. -/
theorem c7_same_event_twice :
    ((runDecisionCycle cSc1 defaultDecision cSt0 cRngBonus).history.map (·.event)) =
      ["Surprise bonus"] ∧
    ((runDecisionCycle cSc1 defaultDecision
        (runDecisionCycle cSc1 defaultDecision cSt0 cRngBonus) cRngBonus).history.map (·.event)) =
      ["Surprise bonus", "Surprise bonus"] := by
  constructor <;>
  norm_num [runDecisionCycle, snapshot, jsSliceLast, event, getLifeEvent, LIFE_EVENTS,
    cSc1, cSt0, cRngBonus, defaultDecision]

/-- Claim C7 (amended): when an event fires it is chosen from the full
five-entry catalog by flooring the scaled pick draw, with no state input
at all, hence with no exclusion of the key fired in the preceding cycle. -/
theorem c7_event_choice_ignores_history (roll pick : ℚ) (i : ℕ) (hroll : roll < 18/100)
    (h1 : (i : ℚ) ≤ pick * (LIFE_EVENTS.length : ℚ))
    (h2 : pick * (LIFE_EVENTS.length : ℚ) < (i : ℚ) + 1) :
    getLifeEvent roll pick = LIFE_EVENTS.get? i := by
  have hfloor : ⌊pick * (LIFE_EVENTS.length : ℚ)⌋ = (i : ℤ) :=
    Int.floor_eq_iff.mpr ⟨by exact_mod_cast h1, by exact_mod_cast h2⟩
  simp [getLifeEvent, hroll, hfloor]

/-- Claim C7 witness: with roll 0 and pick one fifth the sampler
returns the second catalog entry. -/
theorem c7_event_choice_witness : getLifeEvent 0 (1/5) = LIFE_EVENTS.get? 1 :=
  c7_event_choice_ignores_history 0 (1/5) 1 (by norm_num) (by norm_num [LIFE_EVENTS])
    (by norm_num [LIFE_EVENTS])

/-- Claim C8 counterexample: with both catalog keys unknown the cycle
completes, yet the returned state is not equal to the one produced by
the corresponding valid-key decision, because the recorded snapshot
keeps the original decision keys. -/
theorem c8_result_not_identical :
    MARKET_PRESETS cDMystery.marketMode = none ∧
    RISK_PRESETS cDMystery.riskProfile = none ∧
    runDecisionCycle cSc1 cDMystery cSt0 cRngNone ≠
      runDecisionCycle cSc1 defaultDecision cSt0 cRngNone := by
  refine ⟨rfl, rfl, ?_⟩
  intro h
  have h2 := congrArg (fun s : SimState => s.history.map (·.decision)) h
  simp [runDecisionCycle, jsSliceLast, snapshot, cDMystery, defaultDecision, cSt0] at h2

/-- Claim C8 (amended): a decision whose market-climate or risk-profile
key is not in the catalog never fails: the engine computes the cycle
with the neutral default substituted for each unknown key (stable
market when the market key is unknown, moderate risk when the risk key
is unknown), and every scalar field of the returned state and every
snapshot field except the recorded decision equal those of the run with
the substituted keys; only the recorded decision differs, keeping the
original unknown keys. -/
theorem c8_unknown_keys_neutral_defaults (sc : Scenario) (st : SimState) (rng : Rng)
    (d d2 : Decision)
    (hmode : d2.marketMode =
      if (MARKET_PRESETS d.marketMode).isSome then d.marketMode else "neutral")
    (hrisk : d2.riskProfile =
      if (RISK_PRESETS d.riskProfile).isSome then d.riskProfile else "moderate")
    (hlife : d2.lifestyle = d.lifestyle) (halloc : d2.allocation = d.allocation)
    (hstrat : d2.debtStrategy = d.debtStrategy) :
    (runDecisionCycle sc d st rng).month = (runDecisionCycle sc d2 st rng).month ∧
    (runDecisionCycle sc d st rng).cashOnHand = (runDecisionCycle sc d2 st rng).cashOnHand ∧
    (runDecisionCycle sc d st rng).savings = (runDecisionCycle sc d2 st rng).savings ∧
    (runDecisionCycle sc d st rng).investments = (runDecisionCycle sc d2 st rng).investments ∧
    (runDecisionCycle sc d st rng).debtBalance = (runDecisionCycle sc d2 st rng).debtBalance ∧
    (runDecisionCycle sc d st rng).stressLevel = (runDecisionCycle sc d2 st rng).stressLevel ∧
    (runDecisionCycle sc d st rng).creditScore = (runDecisionCycle sc d2 st rng).creditScore ∧
    (runDecisionCycle sc d st rng).history.map Snapshot.core =
      (runDecisionCycle sc d2 st rng).history.map Snapshot.core := by
  have e1 : MARKET_PRESETS "neutral" = some MARKET_neutral := rfl
  have e2 : RISK_PRESETS "moderate" = some RISK_moderate := rfl
  have hM : market d2 = market d := by
    unfold market
    rw [hmode]
    cases h : MARKET_PRESETS d.marketMode with
    | none => simp [h, e1]
    | some m => simp [h]
  have hR : risk d2 = risk d := by
    unfold risk
    rw [hrisk]
    cases h : RISK_PRESETS d.riskProfile with
    | none => simp [h, e2]
    | some r => simp [h]
  have hA : allocation d2 = allocation d := by unfold allocation; rw [halloc]
  have hL : lifestyle d2 = lifestyle d := by unfold lifestyle; rw [hlife]
  have hve : variableExpenses sc d2 = variableExpenses sc d := by
    unfold variableExpenses; rw [hL]
  have hex : expenses sc d2 rng = expenses sc d rng := by unfold expenses; rw [hve]
  have hbdp : baseDebtPayment sc d2 rng = baseDebtPayment sc d rng := by
    unfold baseDebtPayment; rw [hA]
  have hdp : debtPayment sc d2 rng = debtPayment sc d rng := by
    unfold debtPayment; simp only [hstrat, hbdp]
  have hsc : savingsContribution sc d2 rng = savingsContribution sc d rng := by
    unfold savingsContribution; rw [hA]
  have hicn : investmentContribution sc d2 rng = investmentContribution sc d rng := by
    unfold investmentContribution; rw [hA]
  have hmr : marketReturn d2 rng = marketReturn d rng := by unfold marketReturn; rw [hM, hR]
  have hout : outflow sc d2 rng = outflow sc d rng := by
    unfold outflow; rw [hex, hdp, hsc, hicn]
  have hcd : cashDelta sc d2 rng = cashDelta sc d rng := by unfold cashDelta; rw [hout]
  have hmp : missedPayment sc d2 rng = missedPayment sc d rng := by
    unfold missedPayment; simp only [hcd]
  have hnc : nextCash sc d2 st rng = nextCash sc d st rng := by unfold nextCash; rw [hcd]
  have hns : nextSavings sc d2 st rng = nextSavings sc d st rng := by
    unfold nextSavings; rw [hsc]
  have hni : nextInvestments sc d2 st rng = nextInvestments sc d st rng := by
    unfold nextInvestments; rw [hicn, hmr]
  have hnd : nextDebt sc d2 st rng = nextDebt sc d st rng := by unfold nextDebt; rw [hdp]
  have hnw : netWorth sc d2 st rng = netWorth sc d st rng := by
    unfold netWorth; rw [hnc, hns, hni, hnd]
  have hsl : stressLevel sc d2 st rng = stressLevel sc d st rng := by
    unfold stressLevel; simp only [hnc, hnd, hex, hlife]
  have hcs : creditScore sc d2 st rng = creditScore sc d st rng := by
    unfold creditScore; simp only [hdp, hnd, hmp]
  have hsnap : (snapshot sc d2 st rng).core = (snapshot sc d st rng).core := by
    simp only [snapshot, Snapshot.core, hnw, hnc, hns, hni, hnd, hsl, hcs, hex, hmr]
  refine ⟨rfl, hnc.symm, hns.symm, hni.symm, hnd.symm, hsl.symm, hcs.symm, ?_⟩
  show (jsSliceLast 72 (st.history ++ [snapshot sc d st rng])).map Snapshot.core =
      (jsSliceLast 72 (st.history ++ [snapshot sc d2 st rng])).map Snapshot.core
  rw [jsSliceLast_map, jsSliceLast_map, List.map_append, List.map_append,
    List.map_singleton, List.map_singleton, hsnap]

/-- Claim C8 witness: a decision with an unknown market key and the
valid aggressive risk key matches the run with the neutral market key
substituted and the risk key kept, on every field of one concrete cycle
except the recorded decision. -/
theorem c8_unknown_keys_witness :
    (runDecisionCycle cSc1 cDUnknownMarket cSt0 cRngNone).month =
        (runDecisionCycle cSc1 cDAggressiveRisk cSt0 cRngNone).month ∧
    (runDecisionCycle cSc1 cDUnknownMarket cSt0 cRngNone).cashOnHand =
        (runDecisionCycle cSc1 cDAggressiveRisk cSt0 cRngNone).cashOnHand ∧
    (runDecisionCycle cSc1 cDUnknownMarket cSt0 cRngNone).savings =
        (runDecisionCycle cSc1 cDAggressiveRisk cSt0 cRngNone).savings ∧
    (runDecisionCycle cSc1 cDUnknownMarket cSt0 cRngNone).investments =
        (runDecisionCycle cSc1 cDAggressiveRisk cSt0 cRngNone).investments ∧
    (runDecisionCycle cSc1 cDUnknownMarket cSt0 cRngNone).debtBalance =
        (runDecisionCycle cSc1 cDAggressiveRisk cSt0 cRngNone).debtBalance ∧
    (runDecisionCycle cSc1 cDUnknownMarket cSt0 cRngNone).stressLevel =
        (runDecisionCycle cSc1 cDAggressiveRisk cSt0 cRngNone).stressLevel ∧
    (runDecisionCycle cSc1 cDUnknownMarket cSt0 cRngNone).creditScore =
        (runDecisionCycle cSc1 cDAggressiveRisk cSt0 cRngNone).creditScore ∧
    (runDecisionCycle cSc1 cDUnknownMarket cSt0 cRngNone).history.map Snapshot.core =
      (runDecisionCycle cSc1 cDAggressiveRisk cSt0 cRngNone).history.map Snapshot.core :=
  c8_unknown_keys_neutral_defaults cSc1 cSt0 cRngNone cDUnknownMarket cDAggressiveRisk
    rfl rfl rfl rfl rfl

/-- Claim C9: with a non-negative starting balance, a non-negative debt
payment and a non-negative scenario debt rate, the debt balance returned
by one cycle is non-negative and at most the prior balance plus the
interest accrued that cycle. -/
theorem c9_debt_nonneg_bounded (sc : Scenario) (d : Decision) (st : SimState) (rng : Rng)
    (hb : 0 ≤ st.debtBalance) (hp : 0 ≤ debtPayment sc d rng) (hr : 0 ≤ sc.debtRate) :
    0 ≤ (runDecisionCycle sc d st rng).debtBalance ∧
      (runDecisionCycle sc d st rng).debtBalance ≤ st.debtBalance + debtInterest sc st := by
  have hi : 0 ≤ debtInterest sc st := mul_nonneg hb (by positivity)
  refine ⟨le_clamp _ _ _ (by norm_num), ?_⟩
  show clamp (st.debtBalance + debtInterest sc st - debtPayment sc d rng) 0 1000000000 ≤ _
  exact le_trans (min_le_left _ _) (max_le (by linarith) (by linarith))

/-- Claim C9 witness: the bound holds at a concrete zero-debt input. -/
theorem c9_debt_witness :
    0 ≤ (runDecisionCycle cSc1 defaultDecision cSt0 cRngNone).debtBalance ∧
      (runDecisionCycle cSc1 defaultDecision cSt0 cRngNone).debtBalance ≤
        cSt0.debtBalance + debtInterest cSc1 cSt0 :=
  c9_debt_nonneg_bounded cSc1 defaultDecision cSt0 cRngNone (le_refl 0)
    (by norm_num [debtPayment, baseDebtPayment, income, incomeMultiplier, eventImpact, event,
      getLifeEvent, LIFE_EVENTS, Impact.empty, allocation, ALLOCATION_PRESETS,
      ALLOCATION_balanced, cSc1, cRngNone, defaultDecision])
    (le_refl 0)

/-- Claim C10: the debt balance returned by one cycle always lies in the
band from 0 to one billion, the clamp applied to the updated balance. -/
theorem c10_debt_cap (sc : Scenario) (d : Decision) (st : SimState) (rng : Rng) :
    0 ≤ (runDecisionCycle sc d st rng).debtBalance ∧
      (runDecisionCycle sc d st rng).debtBalance ≤ 1000000000 :=
  ⟨le_clamp _ _ _ (by norm_num), clamp_le _ _ _⟩

end Nexa
